import Mathlib

/-!
Shallow embedding of the `T1DPatient` core of the simglucose repository
(`simglucose/patient/t1dpatient.py`) and proofs about it.

Python floats are modelled as real numbers.  The numerical ODE integrator
(`scipy.integrate.ode`, method dopri5) is external to the repository; it is
modelled as an abstract solver record `OdeSolver` (current state vector `y`,
current time `t`, success flag `successful`) together with an abstract
integration function passed as a parameter to `step`.  Everything the
repository itself computes (`model`, `_announce_meal`, `step` bookkeeping,
`reset`) is translated directly from the source.
-/

namespace Simglucose

/-- `Action = namedtuple("patient_action", ['CHO', 'insulin'])`. -/
structure Action where
  CHO : ℝ
  insulin : ℝ

/-- The per-patient parameter bundle: exactly the fields of `params` that
`T1DPatient.model` reads. -/
structure Params where
  BW : ℝ
  u2ss : ℝ
  kmax : ℝ
  kmin : ℝ
  kabs : ℝ
  b : ℝ
  d : ℝ
  f : ℝ
  kp1 : ℝ
  kp2 : ℝ
  kp3 : ℝ
  kcounter : ℝ
  Fsnc : ℝ
  ke1 : ℝ
  ke2 : ℝ
  k1 : ℝ
  k2 : ℝ
  Vg : ℝ
  Gth : ℝ
  Gb : ℝ
  r1 : ℝ
  r2 : ℝ
  r3 : ℝ
  Vm0 : ℝ
  Vmx : ℝ
  Km0 : ℝ
  m1 : ℝ
  m2 : ℝ
  m30 : ℝ
  m4 : ℝ
  ka1 : ℝ
  ka2 : ℝ
  Vi : ℝ
  p2u : ℝ
  Ib : ℝ
  ki : ℝ
  kd : ℝ
  ksc : ℝ
  kGSRd : ℝ
  k01g : ℝ
  kXGn : ℝ
  Gnb : ℝ
  Ith : ℝ
  kGSRs : ℝ
  SRb : ℝ
  SQgluc_k1 : ℝ
  SQgluc_kc1 : ℝ
  SQgluc_k2 : ℝ

/-- The 18-component state vector `x[0..17]` (also used for the derivative
vector `dxdt[0..17]` returned by `model`). -/
structure StateVec where
  x0 : ℝ
  x1 : ℝ
  x2 : ℝ
  x3 : ℝ
  x4 : ℝ
  x5 : ℝ
  x6 : ℝ
  x7 : ℝ
  x8 : ℝ
  x9 : ℝ
  x10 : ℝ
  x11 : ℝ
  x12 : ℝ
  x13 : ℝ
  x14 : ℝ
  x15 : ℝ
  x16 : ℝ
  x17 : ℝ

/-- `T1DPatient.EAT_RATE = 5` (g/min CHO). -/
def EAT_RATE : ℝ := 5

/-- `T1DPatient.SAMPLE_TIME = 1` (min). -/
def SAMPLE_TIME : ℝ := 1

/-- `T1DPatient._announce_meal(meal)`.  The first component of the result is
the returned `to_eat`, the second is the updated `self.planned_meal`.
Source:
    self.planned_meal += meal
    if self.planned_meal > 0:
        to_eat = min(self.EAT_RATE, self.planned_meal)
        self.planned_meal -= to_eat
        self.planned_meal = max(0, self.planned_meal)
    else:
        to_eat = 0
    return to_eat -/
noncomputable def announce_meal (planned_meal meal : ℝ) : ℝ × ℝ :=
  let pm := planned_meal + meal
  if 0 < pm then
    let to_eat := min EAT_RATE pm
    (to_eat, max 0 (pm - to_eat))
  else
    (0, pm)

/-- A single `announce_meal` call conserves carbohydrate mass:
ingested plus remaining backlog equals old backlog plus announced amount. -/
theorem announce_meal_mass (pm m : ℝ) :
    (announce_meal pm m).1 + (announce_meal pm m).2 = pm + m := by
  simp only [announce_meal]
  split_ifs with h
  · have hmin : min EAT_RATE (pm + m) ≤ pm + m := min_le_right _ _
    simp only
    rw [max_eq_right (by linarith)]
    ring
  · simp

/-- Iterated `_announce_meal`: starting from backlog `pm`, feed the list of
announced amounts one call at a time; returns (total ingested, final backlog). -/
noncomputable def announceRun : ℝ → List ℝ → ℝ × ℝ
  | pm, [] => (0, pm)
  | pm, m :: ms =>
    let r := announce_meal pm m
    let rest := announceRun r.2 ms
    (r.1 + rest.1, rest.2)

/-- Conservation over a whole run of `_announce_meal` calls, from any
starting backlog. -/
theorem announceRun_mass (ms : List ℝ) : ∀ pm : ℝ,
    (announceRun pm ms).1 = pm + ms.sum - (announceRun pm ms).2 := by
  induction ms with
  | nil => intro pm; simp [announceRun]
  | cons m ms ih =>
    intro pm
    have hstep := announce_meal_mass pm m
    have htail := ih (announce_meal pm m).2
    simp only [announceRun, List.sum_cons]
    linarith

/-- C5: starting from a zero backlog, the sum of the ingestion amounts
returned by successive `_announce_meal` calls equals the total announced
amount minus the backlog remaining after the last call. -/
theorem c5_total_ingestion (ms : List ℝ) (hms : ∀ m ∈ ms, 0 ≤ m) :
    (announceRun 0 ms).1 = ms.sum - (announceRun 0 ms).2 := by
  have h := announceRun_mass ms 0
  linarith

theorem c5_total_ingestion_witness :
    (∀ m ∈ [(7 : ℝ)], 0 ≤ m) ∧
      (announceRun 0 [(7 : ℝ)]).1 = [(7 : ℝ)].sum - (announceRun 0 [(7 : ℝ)]).2 := by
  constructor
  · intro m hm
    rw [List.mem_singleton] at hm
    rw [hm]; norm_num
  · exact c5_total_ingestion [(7 : ℝ)] (by intro m hm; rw [List.mem_singleton] at hm; rw [hm]; norm_num)

/-- C4: `_announce_meal(amount)` for a non-negative announced amount: the
backlog first absorbs the amount; if the resulting backlog is positive the
call returns `min (EAT_RATE, backlog)` and the backlog is decremented by the
returned amount and floored at 0; if the resulting backlog is non-positive
the call returns 0; and announcing 0 while the backlog is positive still
returns a positive ingestion amount. -/
theorem c4_announce_meal (pm meal : ℝ) (hmeal : 0 ≤ meal) :
    (0 < pm + meal →
        (announce_meal pm meal).1 = min EAT_RATE (pm + meal) ∧
          (announce_meal pm meal).2 = max 0 (pm + meal - min EAT_RATE (pm + meal))) ∧
      (pm + meal ≤ 0 → (announce_meal pm meal).1 = 0) ∧
      (meal = 0 → 0 < pm → 0 < (announce_meal pm meal).1) := by
  refine ⟨?_, ?_, ?_⟩
  · intro h
    simp only [announce_meal]
    rw [if_pos h]
    exact ⟨rfl, rfl⟩
  · intro h
    simp only [announce_meal]
    rw [if_neg (by linarith)]
  · intro h0 hpm
    simp only [announce_meal]
    rw [if_pos (by rw [h0]; linarith)]
    have h5 : (0 : ℝ) < EAT_RATE := by norm_num [EAT_RATE]
    exact lt_min h5 (by rw [h0]; linarith)

theorem c4_announce_meal_witness :
    ((0 : ℝ) ≤ 0) ∧
      ((0 < (2 : ℝ) + 0 →
          (announce_meal 2 0).1 = min EAT_RATE ((2 : ℝ) + 0) ∧
            (announce_meal 2 0).2 = max 0 ((2 : ℝ) + 0 - min EAT_RATE ((2 : ℝ) + 0))) ∧
        ((2 : ℝ) + 0 ≤ 0 → (announce_meal 2 0).1 = 0) ∧
        ((0 : ℝ) = 0 → 0 < (2 : ℝ) → 0 < (announce_meal 2 0).1)) :=
  ⟨by norm_num, c4_announce_meal 2 0 (by norm_num)⟩

/-- The externally supplied numerical integrator object (`scipy.integrate.ode`):
its current state vector `y`, its current time `t`, and the flag reported by
`successful()`. -/
structure OdeSolver where
  y : StateVec
  t : ℝ
  successful : Bool

/-- The mutable fields of a `T1DPatient` instance that `step`, `reset` and
`_announce_meal` touch (leading underscores of the Python attribute names are
dropped). -/
structure SimState where
  odesolver : OdeSolver
  last_Qsto : ℝ
  last_foodtaken : ℝ
  last_action : Action
  is_eating : Bool
  planned_meal : ℝ
  params : Params

/-- `T1DPatient.reset()`: seeds `last_Qsto` from the initial state, zeroes
`last_foodtaken` and `planned_meal`, installs a fresh (successful) solver at
the initial state and start time, and sets the previous action to zero. -/
noncomputable def reset (p : Params) (init_state : StateVec) (t0 : ℝ) : SimState :=
  { odesolver := { y := init_state, t := t0, successful := true }
    last_Qsto := init_state.x0 + init_state.x1
    last_foodtaken := 0
    last_action := { CHO := 0, insulin := 0 }
    is_eating := false
    planned_meal := 0
    params := p }

/-- The bookkeeping part of `T1DPatient.step(action)` (source lines before the
ODE-solver call): convert the announced CHO into the amount to eat now,
replace the action's CHO by it, run the eating-episode transitions, accumulate
`last_foodtaken` while eating, and store the adjusted action as the previous
action. -/
noncomputable def stepBookkeeping (s : SimState) (action : Action) : SimState :=
  let am := announce_meal s.planned_meal action.CHO
  let a : Action := { CHO := am.1, insulin := action.insulin }
  let s1 : SimState := { s with planned_meal := am.2 }
  let s2 : SimState :=
    if 0 < a.CHO ∧ s1.last_action.CHO ≤ 0 then
      { s1 with
        last_Qsto := s1.odesolver.y.x0 + s1.odesolver.y.x1
        last_foodtaken := 0
        is_eating := true }
    else s1
  let s3 : SimState :=
    if s2.is_eating then { s2 with last_foodtaken := s2.last_foodtaken + a.CHO } else s2
  let s4 : SimState :=
    if a.CHO ≤ 0 ∧ 0 < s3.last_action.CHO then { s3 with is_eating := false } else s3
  { s4 with last_action := a }

/-- `T1DPatient.step(action)`: bookkeeping, then — only if the solver reports
success — one integration over a sample period, modelled by the abstract
integration function `integ` (which receives the adjusted action and the
meal-history summary, as `set_f_params` + `integrate` do).  If the solver has
reported failure the call raises; the `Except.error` value carries the state
the object is left in at the raise. -/
noncomputable def step (integ : Params → Action → ℝ → ℝ → OdeSolver → OdeSolver)
    (s : SimState) (action : Action) : Except SimState SimState :=
  let s5 := stepBookkeeping s action
  if s5.odesolver.successful then
    Except.ok { s5 with odesolver := integ s5.params s5.last_action s5.last_Qsto s5.last_foodtaken s5.odesolver }
  else
    Except.error s5

/-- A parameter bundle with every coefficient equal to `v`, used to build
concrete inputs. -/
def constParams (v : ℝ) : Params :=
  { BW := v, u2ss := v, kmax := v, kmin := v, kabs := v, b := v, d := v, f := v
    kp1 := v, kp2 := v, kp3 := v, kcounter := v, Fsnc := v, ke1 := v, ke2 := v
    k1 := v, k2 := v, Vg := v, Gth := v, Gb := v, r1 := v, r2 := v, r3 := v
    Vm0 := v, Vmx := v, Km0 := v, m1 := v, m2 := v, m30 := v, m4 := v
    ka1 := v, ka2 := v, Vi := v, p2u := v, Ib := v, ki := v, kd := v, ksc := v
    kGSRd := v, k01g := v, kXGn := v, Gnb := v, Ith := v, kGSRs := v, SRb := v
    SQgluc_k1 := v, SQgluc_kc1 := v, SQgluc_k2 := v }

/-- A state vector with every component equal to `v`. -/
def constVec (v : ℝ) : StateVec :=
  { x0 := v, x1 := v, x2 := v, x3 := v, x4 := v, x5 := v, x6 := v, x7 := v
    x8 := v, x9 := v, x10 := v, x11 := v, x12 := v, x13 := v, x14 := v
    x15 := v, x16 := v, x17 := v }

/-- An abstract integrator that leaves the solver unchanged; used to build
concrete inputs for `step`. -/
def integId : Params → Action → ℝ → ℝ → OdeSolver → OdeSolver :=
  fun _ _ _ _ o => o

/-- A concrete all-ones parameter bundle. -/
noncomputable def pOne : Params := constParams 1

/-- C7 fails as stated: announcing the (negative) amount `-5` from the zero
backlog leaves `planned_meal` strictly negative. -/
theorem c7_counterexample :
    (announce_meal 0 (-5)).2 = -5 ∧ ((-5 : ℝ) < 0) := by
  norm_num [announce_meal]

/-- C7 amended: the backlog is 0 (hence non-negative) after `reset`, and
`_announce_meal` preserves non-negativity of the backlog for every
NON-NEGATIVE announced amount. -/
theorem c7_planned_meal_nonneg :
    (∀ (p : Params) (i : StateVec) (t0 : ℝ), 0 ≤ (reset p i t0).planned_meal) ∧
      ∀ pm meal : ℝ, 0 ≤ pm → 0 ≤ meal → 0 ≤ (announce_meal pm meal).2 := by
  constructor
  · intro p i t0
    simp [reset]
  · intro pm meal hpm hmeal
    simp only [announce_meal]
    split_ifs with h
    · exact le_max_left 0 _
    · simp only
      linarith

theorem c7_planned_meal_nonneg_witness :
    (0 ≤ (reset pOne (constVec 0) 0).planned_meal) ∧ 0 ≤ (announce_meal 1 2).2 :=
  ⟨c7_planned_meal_nonneg.1 pOne (constVec 0) 0,
    c7_planned_meal_nonneg.2 1 2 (by norm_num) (by norm_num)⟩

/-- The non-negativity indicator used by the clamp lines of `model`:
Python `(x[i] >= 0)` coerced to a float factor (1.0 if `x[i] >= 0`, else 0.0). -/
noncomputable def ind (v : ℝ) : ℝ := if 0 ≤ v then 1 else 0

/-- The gastric-emptying rate `kgut` computed inside `model`:
    if Dbar > 0:
        aa = 5 / 2 / (1 - params.b) / Dbar
        cc = 5 / 2 / params.d / Dbar
        kgut = params.kmin + (params.kmax - params.kmin) / 2 * (np.tanh(
            aa * (qsto - params.b * Dbar)) - np.tanh(cc * (qsto - params.d * Dbar)) + 2)
    else:
        kgut = params.kmax -/
noncomputable def kgut (p : Params) (qsto Dbar : ℝ) : ℝ :=
  if 0 < Dbar then
    p.kmin + (p.kmax - p.kmin) / 2 *
      (Real.tanh (5 / 2 / (1 - p.b) / Dbar * (qsto - p.b * Dbar)) -
        Real.tanh (5 / 2 / p.d / Dbar * (qsto - p.d * Dbar)) + 2)
  else
    p.kmax

/-- Rate of appearance: `Rat = params.f * params.kabs * x[2] / params.BW`. -/
noncomputable def Rat (p : Params) (x : StateVec) : ℝ := p.f * p.kabs * x.x2 / p.BW

/-- Glucose production:
`EGPt = params.kp1 - params.kp2 * x[3] - params.kp3 * x[8] + params.kcounter * x[14]`. -/
noncomputable def EGPt (p : Params) (x : StateVec) : ℝ :=
  p.kp1 - p.kp2 * x.x3 - p.kp3 * x.x8 + p.kcounter * x.x14

/-- Glucose utilization: `Uiit = params.Fsnc`. -/
noncomputable def Uiit (p : Params) : ℝ := p.Fsnc

/-- Renal excretion: `Et = ke1 * (x[3] - ke2)` when `x[3] > ke2`, else 0. -/
noncomputable def Et (p : Params) (x : StateVec) : ℝ :=
  if p.ke2 < x.x3 then p.ke1 * (x.x3 - p.ke2) else 0

/-- The plasma-glucose derivative `dxdt[3]` after its clamp line:
    dxdt[3] = max(EGPt, 0) + Rat - Uiit - Et - params.k1 * x[3] + params.k2 * x[4]
    dxdt[3] = (x[3] >= 0) * dxdt[3] -/
noncomputable def dxdt3 (p : Params) (x : StateVec) : ℝ :=
  ind x.x3 * (max (EGPt p x) 0 + Rat p x - Uiit p - Et p x - p.k1 * x.x3 + p.k2 * x.x4)

/-- `Gt = x[3] / params.Vg`. -/
noncomputable def Gt (p : Params) (x : StateVec) : ℝ := x.x3 / p.Vg

/-- The log-risk term:
    if Gt < params.Gth: fG = np.log((params.Gth / params.Gb) ** params.r1)
    else: fG = np.log((Gt / params.Gb) ** params.r1) -/
noncomputable def fG (p : Params) (x : StateVec) : ℝ :=
  if Gt p x < p.Gth then Real.log ((p.Gth / p.Gb) ^ p.r1)
  else Real.log ((Gt p x / p.Gb) ^ p.r1)

/-- The glucose risk term: `risk = 0` when `Gt > params.Gb`, else `10 * fG**2`. -/
noncomputable def risk (p : Params) (x : StateVec) : ℝ :=
  if p.Gb < Gt p x then 0 else 10 * fG p x ^ 2

/-- `Vmt = params.Vm0 + params.Vmx * x[6]`. -/
noncomputable def Vmt (p : Params) (x : StateVec) : ℝ := p.Vm0 + p.Vmx * x.x6

/-- `Kmt = params.Km0`. -/
noncomputable def Kmt (p : Params) : ℝ := p.Km0

/-- `Uidt = Vmt * (1 + params.r3 * risk) * x[4] / (Kmt + x[4])`. -/
noncomputable def Uidt (p : Params) (x : StateVec) : ℝ :=
  Vmt p x * (1 + p.r3 * risk p x) * x.x4 / (Kmt p + x.x4)

/-- `It = x[5] / params.Vi`. -/
noncomputable def It (p : Params) (x : StateVec) : ℝ := x.x5 / p.Vi

/-- Glucagon secretion drive: `SRd = params.kGSRd * max(-dxdt[3] / params.Vg, 0)`
(the `dxdt[3]` here is the already-clamped value, as in the source). -/
noncomputable def SRd (p : Params) (x : StateVec) : ℝ :=
  p.kGSRd * max (-dxdt3 p x / p.Vg) 0

/-- `SRt = x[15] + SRd`. -/
noncomputable def SRt (p : Params) (x : StateVec) : ℝ := x.x15 + SRd p x

/-- The (pre-clamp) derivative `dxdt[15]`:
    if It >= params.Ith:
        dxdt[15] = -r2 * (x[15] - max(kGSRs * (Gth - Gt) / (It - Ith + 1) + SRb, 0))
    else:
        dxdt[15] = -r2 * (x[15] - max(kGSRs * (Gth - Gt) + SRb, 0)) -/
noncomputable def dxdt15raw (p : Params) (x : StateVec) : ℝ :=
  if p.Ith ≤ It p x then
    -p.r2 * (x.x15 - max (p.kGSRs * (p.Gth - Gt p x) / (It p x - p.Ith + 1) + p.SRb) 0)
  else
    -p.r2 * (x.x15 - max (p.kGSRs * (p.Gth - Gt p x) + p.SRb) 0)

/-- The ODE right-hand side `T1DPatient.model(t, x, action, params,
last_Qsto, last_foodtaken)`, returning the derivative vector `dxdt`. -/
noncomputable def model (t : ℝ) (x : StateVec) (action : Action) (p : Params)
    (last_Qsto last_foodtaken : ℝ) : StateVec :=
  let d := action.CHO * 1000
  let insulin := action.insulin * 6000 / p.BW
  let qsto := x.x0 + x.x1
  let Dbar := last_Qsto + last_foodtaken
  let kg := kgut p qsto Dbar
  { x0 := -p.kmax * x.x0 + d
    x1 := p.kmax * x.x0 - x.x1 * kg
    x2 := kg * x.x1 - p.kabs * x.x2
    x3 := dxdt3 p x
    x4 := ind x.x4 * (-Uidt p x + p.k1 * x.x3 - p.k2 * x.x4)
    x5 := ind x.x5 * (-(p.m2 + p.m4) * x.x5 + p.m1 * x.x9 + p.ka1 * x.x10 + p.ka2 * x.x11)
    x6 := -p.p2u * x.x6 + p.p2u * (It p x - p.Ib)
    x7 := -p.ki * (x.x7 - It p x)
    x8 := -p.ki * (x.x8 - x.x7)
    x9 := ind x.x9 * (-(p.m1 + p.m30) * x.x9 + p.m2 * x.x5)
    x10 := ind x.x10 * (insulin - (p.ka1 + p.kd) * x.x10)
    x11 := ind x.x11 * (p.kd * x.x10 - p.ka2 * x.x11)
    x12 := ind x.x12 * (-p.ksc * x.x12 + p.ksc * x.x3)
    x13 := ind x.x13 * (-p.k01g * x.x13 + SRt p x)
    x14 := -p.kXGn * x.x14 + p.kXGn * max (x.x13 - p.Gnb) 0
    x15 := ind x.x15 * dxdt15raw p x
    x16 := ind x.x16 * (-(p.SQgluc_k1 + p.SQgluc_kc1) * x.x16)
    x17 := ind x.x17 * (p.SQgluc_k1 * x.x16 - p.SQgluc_k2 * x.x17) }

/-- The hyperbolic tangent is bounded above by 1. -/
theorem tanh_lt_one_real (x : ℝ) : Real.tanh x < 1 := by
  rw [Real.tanh_eq_sinh_div_cosh, div_lt_one (Real.cosh_pos x)]
  exact Real.sinh_lt_cosh x

/-- The hyperbolic tangent is bounded below by -1. -/
theorem neg_one_lt_tanh_real (x : ℝ) : -1 < Real.tanh x := by
  rw [Real.tanh_eq_sinh_div_cosh, lt_div_iff₀ (Real.cosh_pos x)]
  have h1 := Real.cosh_add_sinh x
  have h2 := Real.exp_pos x
  nlinarith

/-- The hyperbolic tangent is strictly monotone. -/
theorem tanh_lt_tanh_real {x y : ℝ} (h : x < y) : Real.tanh x < Real.tanh y := by
  rw [Real.tanh_eq_sinh_div_cosh, Real.tanh_eq_sinh_div_cosh,
    div_lt_div_iff₀ (Real.cosh_pos x) (Real.cosh_pos y)]
  have h1 : Real.sinh (x - y) < 0 := by
    have hxy : x - y < 0 := by linarith
    have := Real.sinh_lt_sinh.2 hxy
    rwa [Real.sinh_zero] at this
  have h2 := Real.sinh_sub x y
  nlinarith

/-- Parameters exhibiting the C3 failure: `kmin = 0`, `kmax = 1`,
`b = 2/5`, `d = 7/10` (all other coefficients 1). -/
noncomputable def pKgut : Params := { constParams 1 with kmin := 0, kmax := 1, b := 2 / 5, d := 7 / 10 }

/-- C3 fails as stated: with `kmin = 0 ≤ 1 = kmax`, `0 < b = 2/5 < 1`,
`0 < d = 7/10` and `Dbar = 1 ≥ 0`, at `qsto = 1` the rate `kgut` is strictly
greater than `kmax`. -/
theorem c3_counterexample :
    pKgut.kmin ≤ pKgut.kmax ∧ 0 < pKgut.b ∧ pKgut.b < 1 ∧ 0 < pKgut.d ∧
      (0 : ℝ) ≤ 1 ∧ pKgut.kmax < kgut pKgut 1 1 := by
  refine ⟨by norm_num [pKgut, constParams], by norm_num [pKgut, constParams],
    by norm_num [pKgut, constParams], by norm_num [pKgut, constParams], by norm_num, ?_⟩
  have hb : pKgut.b = 2 / 5 := by norm_num [pKgut, constParams]
  have hd : pKgut.d = 7 / 10 := by norm_num [pKgut, constParams]
  have hmin : pKgut.kmin = 0 := by norm_num [pKgut, constParams]
  have hmax : pKgut.kmax = 1 := by norm_num [pKgut, constParams]
  rw [kgut, if_pos (by norm_num : (0 : ℝ) < 1), hb, hd, hmin, hmax]
  have harg1 : (5 : ℝ) / 2 / (1 - 2 / 5) / 1 * (1 - 2 / 5 * 1) = 5 / 2 := by norm_num
  have harg2 : (5 : ℝ) / 2 / (7 / 10) / 1 * (1 - 7 / 10 * 1) = 15 / 14 := by norm_num
  rw [harg1, harg2]
  have hmono := tanh_lt_tanh_real (show (15 : ℝ) / 14 < 5 / 2 by norm_num)
  linarith

/-- C3 amended: under the claim's hypotheses (`kmin ≤ kmax`, `0 < b < 1`,
`0 < d`, `Dbar ≥ 0`) the rate `kgut` always satisfies
`kmin ≤ kgut ≤ 2 * kmax - kmin` (it can exceed `kmax`, see the
counterexample), and at the boundary `Dbar = 0` the non-division branch is
taken and `kgut` equals exactly `kmax`. -/
theorem c3_kgut_bounds (p : Params) (qsto Dbar : ℝ) (hk : p.kmin ≤ p.kmax)
    (hb0 : 0 < p.b) (hb1 : p.b < 1) (hd : 0 < p.d) (hD : 0 ≤ Dbar) :
    p.kmin ≤ kgut p qsto Dbar ∧ kgut p qsto Dbar ≤ 2 * p.kmax - p.kmin ∧
      (Dbar = 0 → kgut p qsto Dbar = p.kmax) := by
  by_cases h : 0 < Dbar
  · rw [kgut, if_pos h]
    have ha1 := neg_one_lt_tanh_real (5 / 2 / (1 - p.b) / Dbar * (qsto - p.b * Dbar))
    have ha2 := tanh_lt_one_real (5 / 2 / (1 - p.b) / Dbar * (qsto - p.b * Dbar))
    have hb1t := neg_one_lt_tanh_real (5 / 2 / p.d / Dbar * (qsto - p.d * Dbar))
    have hb2t := tanh_lt_one_real (5 / 2 / p.d / Dbar * (qsto - p.d * Dbar))
    refine ⟨?_, ?_, ?_⟩
    · nlinarith
    · nlinarith
    · intro h0
      rw [h0] at h
      exact absurd h (by norm_num)
  · rw [kgut, if_neg h]
    exact ⟨hk, by linarith, fun _ => rfl⟩

theorem c3_kgut_bounds_witness :
    pKgut.kmin ≤ kgut pKgut 3 0 ∧ kgut pKgut 3 0 ≤ 2 * pKgut.kmax - pKgut.kmin ∧
      ((0 : ℝ) = 0 → kgut pKgut 3 0 = pKgut.kmax) :=
  c3_kgut_bounds pKgut 3 0 (by norm_num [pKgut, constParams])
    (by norm_num [pKgut, constParams]) (by norm_num [pKgut, constParams])
    (by norm_num [pKgut, constParams]) (by norm_num)

/-- A state vector that is zero except for a negative stomach-solid
compartment `x[0] = -1`. -/
noncomputable def xNegStomach : StateVec := { constVec 0 with x0 := -1 }

/-- C1 fails as stated: the stomach-solid compartment `x[0]` is NOT clamped.
At a state with `x[0] = -1 < 0` (all else zero, all parameters 1, zero
action) the returned `dxdt[0]` is `1`, not the `0` the indicator form
requires. -/
theorem c1_counterexample :
    xNegStomach.x0 < 0 ∧
      (model 0 xNegStomach { CHO := 0, insulin := 0 } pOne 0 0).x0 = 1 ∧
      ind xNegStomach.x0 * (-pOne.kmax * xNegStomach.x0 + (0 : ℝ) * 1000) = 0 := by
  refine ⟨by norm_num [xNegStomach, constVec], ?_, ?_⟩
  · show -pOne.kmax * xNegStomach.x0 + (0 : ℝ) * 1000 = 1
    norm_num [pOne, constParams, xNegStomach, constVec]
  · rw [ind, if_neg (by norm_num [xNegStomach, constVec] : ¬(0 : ℝ) ≤ xNegStomach.x0)]
    ring

/-- C1 amended: the indicator clamp applies exactly to the compartments
`x[3], x[4], x[5], x[9], x[10], x[11], x[12], x[13], x[15], x[16], x[17]`:
for each of these the returned derivative equals the raw derivative
multiplied by the indicator of the current component value.  The stomach
solid/liquid and intestine compartments `x[0], x[1], x[2]` are returned
unclamped. -/
theorem c1_clamped_components (t : ℝ) (x : StateVec) (a : Action) (p : Params)
    (lq lf : ℝ) :
    (model t x a p lq lf).x3 =
        ind x.x3 * (max (EGPt p x) 0 + Rat p x - Uiit p - Et p x - p.k1 * x.x3 + p.k2 * x.x4) ∧
      (model t x a p lq lf).x4 = ind x.x4 * (-Uidt p x + p.k1 * x.x3 - p.k2 * x.x4) ∧
      (model t x a p lq lf).x5 =
        ind x.x5 * (-(p.m2 + p.m4) * x.x5 + p.m1 * x.x9 + p.ka1 * x.x10 + p.ka2 * x.x11) ∧
      (model t x a p lq lf).x9 = ind x.x9 * (-(p.m1 + p.m30) * x.x9 + p.m2 * x.x5) ∧
      (model t x a p lq lf).x10 = ind x.x10 * (a.insulin * 6000 / p.BW - (p.ka1 + p.kd) * x.x10) ∧
      (model t x a p lq lf).x11 = ind x.x11 * (p.kd * x.x10 - p.ka2 * x.x11) ∧
      (model t x a p lq lf).x12 = ind x.x12 * (-p.ksc * x.x12 + p.ksc * x.x3) ∧
      (model t x a p lq lf).x13 = ind x.x13 * (-p.k01g * x.x13 + SRt p x) ∧
      (model t x a p lq lf).x15 = ind x.x15 * dxdt15raw p x ∧
      (model t x a p lq lf).x16 = ind x.x16 * (-(p.SQgluc_k1 + p.SQgluc_kc1) * x.x16) ∧
      (model t x a p lq lf).x17 = ind x.x17 * (p.SQgluc_k1 * x.x16 - p.SQgluc_k2 * x.x17) :=
  ⟨rfl, rfl, rfl, rfl, rfl, rfl, rfl, rfl, rfl, rfl, rfl⟩

/-- The glucose risk term written the way the spec states it: 0 above basal
glycemia, otherwise 10 times the square of `log((max(Gt, Gth) / Gb) ** r1)`.
Follows the spec sentence, to be compared with `risk` from the source. -/
noncomputable def riskSpec (p : Params) (x : StateVec) : ℝ :=
  if p.Gb < Gt p x then 0
  else 10 * Real.log ((max (Gt p x) p.Gth / p.Gb) ^ p.r1) ^ 2

/-- C8: the source's branch-structured risk term agrees with the spec's
`max(Gt, Gth)` formulation: it is 0 whenever `Gt > Gb` and otherwise equals
`10 * log((max(Gt, Gth) / Gb) ** r1) ** 2`, so the argument of the logarithm
is floored at `Gth`. -/
theorem c8_risk_eq_spec (p : Params) (x : StateVec) : risk p x = riskSpec p x := by
  rw [risk, riskSpec]
  by_cases hG : p.Gb < Gt p x
  · rw [if_pos hG, if_pos hG]
  · rw [if_neg hG, if_neg hG, fG]
    by_cases hT : Gt p x < p.Gth
    · rw [if_pos hT, max_eq_right hT.le]
    · rw [if_neg hT, max_eq_left (le_of_not_lt hT)]

/-- C9: the endogenous-glucose-production contribution to `dxdt[3]` is
floored at zero: the returned `dxdt[3]` is the indicator of `x[3]` times
`max(EGPt, 0)` plus the remaining terms, where
`EGPt = kp1 - kp2 * x[3] - kp3 * x[8] + kcounter * x[14]`; consequently the
returned value is never below what it would be with the production term
dropped — a negative `EGPt` never subtracts from plasma glucose. -/
theorem c9_egp_floor (t : ℝ) (x : StateVec) (a : Action) (p : Params) (lq lf : ℝ) :
    (model t x a p lq lf).x3 =
        ind x.x3 * (max (p.kp1 - p.kp2 * x.x3 - p.kp3 * x.x8 + p.kcounter * x.x14) 0 +
          Rat p x - Uiit p - Et p x - p.k1 * x.x3 + p.k2 * x.x4) ∧
      ind x.x3 * (Rat p x - Uiit p - Et p x - p.k1 * x.x3 + p.k2 * x.x4) ≤
        (model t x a p lq lf).x3 := by
  refine ⟨rfl, ?_⟩
  have h0 : 0 ≤ ind x.x3 := by rw [ind]; split_ifs <;> norm_num
  have h1 : 0 ≤ max (p.kp1 - p.kp2 * x.x3 - p.kp3 * x.x8 + p.kcounter * x.x14) 0 :=
    le_max_right _ _
  have h2 : (model t x a p lq lf).x3 =
      ind x.x3 * (max (p.kp1 - p.kp2 * x.x3 - p.kp3 * x.x8 + p.kcounter * x.x14) 0 +
        Rat p x - Uiit p - Et p x - p.k1 * x.x3 + p.k2 * x.x4) := rfl
  rw [h2]
  nlinarith [mul_nonneg h0 h1]

/-- The bookkeeping part of `step` never touches the solver object. -/
theorem stepBookkeeping_odesolver (s : SimState) (a : Action) :
    (stepBookkeeping s a).odesolver = s.odesolver := by
  simp only [stepBookkeeping]
  split_ifs <;> rfl

/-- A simulator state whose solver has reported failure (all other fields as
after `reset` from the zero vector). -/
noncomputable def sFail : SimState :=
  { odesolver := { y := constVec 0, t := 0, successful := false }
    last_Qsto := 0
    last_foodtaken := 0
    last_action := { CHO := 0, insulin := 0 }
    is_eating := false
    planned_meal := 0
    params := pOne }

/-- The state `sFail` is left in by `step` with action `CHO = 5`: the meal
bookkeeping has run before the failure check. -/
noncomputable def sFailPost : SimState :=
  { odesolver := { y := constVec 0, t := 0, successful := false }
    last_Qsto := 0
    last_foodtaken := 5
    last_action := { CHO := 5, insulin := 0 }
    is_eating := true
    planned_meal := 0
    params := pOne }

/-- C2 fails as stated: with the solver in a failed state, `step` with
`CHO = 5` raises (returns the error) but has already flipped `is_eating`
from `false` to `true` (and updated `last_foodtaken` and the previous
action), so the externally observable state is not left unchanged. -/
theorem c2_counterexample :
    step integId sFail { CHO := 5, insulin := 0 } = Except.error sFailPost ∧
      sFailPost.is_eating = true ∧ sFail.is_eating = false := by
  refine ⟨?_, rfl, rfl⟩
  norm_num [step, stepBookkeeping, announce_meal, EAT_RATE, sFail, sFailPost,
    integId, constVec, min_def, max_def]

/-- C2 amended: if the solver has reported failure, `step` raises on that
call without invoking the integrator — the error value is exactly the
bookkeeping-updated state, whose solver object (state vector and time) is
unchanged; but the meal bookkeeping (planned_meal, is_eating, last_Qsto,
last_foodtaken, previous action) has already been updated before the failure
check, as in a normal step. -/
theorem c2_failed_solver_raises (integ : Params → Action → ℝ → ℝ → OdeSolver → OdeSolver)
    (s : SimState) (a : Action) (h : s.odesolver.successful = false) :
    step integ s a = Except.error (stepBookkeeping s a) ∧
      (stepBookkeeping s a).odesolver = s.odesolver := by
  have hb := stepBookkeeping_odesolver s a
  refine ⟨?_, hb⟩
  simp [step, hb, h]

theorem c2_failed_solver_raises_witness :
    step integId sFail { CHO := 0, insulin := 0 } =
        Except.error (stepBookkeeping sFail { CHO := 0, insulin := 0 }) ∧
      (stepBookkeeping sFail { CHO := 0, insulin := 0 }).odesolver = sFail.odesolver :=
  c2_failed_solver_raises integId sFail { CHO := 0, insulin := 0 } rfl

/-- How one bookkeeping pass updates the eating flag: it is cleared when the
ingestion is non-positive and the previous stored CHO was positive, set when
the ingestion is positive and the previous stored CHO was non-positive, and
kept otherwise. -/
theorem stepBookkeeping_is_eating (s : SimState) (a : Action) :
    (stepBookkeeping s a).is_eating =
      if (announce_meal s.planned_meal a.CHO).1 ≤ 0 ∧ 0 < s.last_action.CHO then false
      else if 0 < (announce_meal s.planned_meal a.CHO).1 ∧ s.last_action.CHO ≤ 0 then true
      else s.is_eating := by
  simp only [stepBookkeeping, apply_ite SimState.is_eating, apply_ite SimState.last_action,
    apply_ite Action.CHO, ite_self]

/-- Driver used to state the eating-episode trace: feed a list of announced
CHO amounts (insulin 0) through successive `step` calls, recording after each
successful step the adjusted CHO stored as the previous action (the actual
ingestion of that step) and the eating flag. -/
noncomputable def runEating (integ : Params → Action → ℝ → ℝ → OdeSolver → OdeSolver) :
    SimState → List ℝ → List (ℝ × Bool)
  | _, [] => []
  | s, c :: cs =>
    match step integ s { CHO := c, insulin := 0 } with
    | Except.ok s2 => (s2.last_action.CHO, s2.is_eating) :: runEating integ s2 cs
    | Except.error _ => []

/-- The simulator state reached after announcing 15 g from the reset state
(backlog 10, one 5 g ingestion done, eating). -/
noncomputable def mealS3 : SimState :=
  { odesolver := { y := constVec 0, t := 0, successful := true }
    last_Qsto := 0
    last_foodtaken := 5
    last_action := { CHO := 5, insulin := 0 }
    is_eating := true
    planned_meal := 10
    params := pOne }

/-- One more zero-announcement step after `mealS3`. -/
noncomputable def mealS4 : SimState :=
  { mealS3 with last_foodtaken := 10, planned_meal := 5 }

/-- One more zero-announcement step after `mealS4` (backlog exhausted). -/
noncomputable def mealS5 : SimState :=
  { mealS3 with last_foodtaken := 15, planned_meal := 0 }

/-- The state after the eating episode has ended. -/
noncomputable def mealS6 : SimState :=
  { mealS3 with
    last_foodtaken := 15
    planned_meal := 0
    last_action := { CHO := 0, insulin := 0 }
    is_eating := false }

/-- The reset state used by the trace, with its fields written out. -/
noncomputable def mealS0 : SimState :=
  { odesolver := { y := constVec 0, t := 0, successful := true }
    last_Qsto := 0
    last_foodtaken := 0
    last_action := { CHO := 0, insulin := 0 }
    is_eating := false
    planned_meal := 0
    params := pOne }

theorem reset_eq_mealS0 : reset pOne (constVec 0) 0 = mealS0 := by
  norm_num [reset, mealS0, constVec]

theorem step_mealS0_zero :
    step integId mealS0 { CHO := 0, insulin := 0 } = Except.ok mealS0 := by
  norm_num [step, stepBookkeeping, announce_meal, EAT_RATE, integId, mealS0,
    constVec, min_def, max_def]

theorem step_mealS0_fifteen :
    step integId mealS0 { CHO := 15, insulin := 0 } = Except.ok mealS3 := by
  norm_num [step, stepBookkeeping, announce_meal, EAT_RATE, integId, mealS0, mealS3,
    constVec, min_def, max_def]

theorem step_mealS3_zero :
    step integId mealS3 { CHO := 0, insulin := 0 } = Except.ok mealS4 := by
  norm_num [step, stepBookkeeping, announce_meal, EAT_RATE, integId, mealS3, mealS4,
    constVec, min_def, max_def]

theorem step_mealS4_zero :
    step integId mealS4 { CHO := 0, insulin := 0 } = Except.ok mealS5 := by
  norm_num [step, stepBookkeeping, announce_meal, EAT_RATE, integId, mealS3, mealS4, mealS5,
    constVec, min_def, max_def]

theorem step_mealS5_zero :
    step integId mealS5 { CHO := 0, insulin := 0 } = Except.ok mealS6 := by
  norm_num [step, stepBookkeeping, announce_meal, EAT_RATE, integId, mealS3, mealS5, mealS6,
    constVec, min_def, max_def]

theorem step_mealS6_zero :
    step integId mealS6 { CHO := 0, insulin := 0 } = Except.ok mealS6 := by
  norm_num [step, stepBookkeeping, announce_meal, EAT_RATE, integId, mealS3, mealS6,
    constVec, min_def, max_def]

/-- C6: the eating flag follows the two-state machine exactly — it is false
after `reset`; it becomes true on a step whose ingestion is positive while
the previous step's stored CHO was non-positive; it becomes false on a step
whose ingestion is non-positive while the previous step's stored CHO was
positive; and the announcement sequence `[0, 0, 15, 0, 0, 0, 0]` (which
produces the per-step ingestion sequence `[0, 0, 5, 5, 5, 0, 0]`) yields the
eating-flag sequence `[false, false, true, true, true, false, false]`. -/
theorem c6_eating_state_machine :
    (∀ (p : Params) (i : StateVec) (t0 : ℝ), (reset p i t0).is_eating = false) ∧
      (∀ (s : SimState) (a : Action),
        (0 < (announce_meal s.planned_meal a.CHO).1 ∧ s.last_action.CHO ≤ 0 →
          (stepBookkeeping s a).is_eating = true) ∧
        ((announce_meal s.planned_meal a.CHO).1 ≤ 0 ∧ 0 < s.last_action.CHO →
          (stepBookkeeping s a).is_eating = false)) ∧
      runEating integId (reset pOne (constVec 0) 0) [0, 0, 15, 0, 0, 0, 0] =
        [(0, false), (0, false), (5, true), (5, true), (5, true), (0, false), (0, false)] := by
  refine ⟨fun p i t0 => rfl, fun s a => ⟨?_, ?_⟩, ?_⟩
  · intro h
    rw [stepBookkeeping_is_eating, if_neg (fun hc => absurd h.1 (not_lt.2 hc.1)), if_pos h]
  · intro h
    rw [stepBookkeeping_is_eating, if_pos h]
  · rw [reset_eq_mealS0]
    simp only [runEating, step_mealS0_zero, step_mealS0_fifteen, step_mealS3_zero,
      step_mealS4_zero, step_mealS5_zero, step_mealS6_zero]
    norm_num [mealS0, mealS3, mealS4, mealS5, mealS6]

theorem c6_eating_state_machine_witness :
    (stepBookkeeping mealS0 { CHO := 15, insulin := 0 }).is_eating = true :=
  (c6_eating_state_machine.2.1 mealS0 { CHO := 15, insulin := 0 }).1
    (by norm_num [announce_meal, mealS0, EAT_RATE, min_def])

/-- The previous action stored by one bookkeeping pass is the adjusted
action: the announced CHO replaced by the ingestion, the insulin kept. -/
theorem stepBookkeeping_last_action (s : SimState) (a : Action) :
    (stepBookkeeping s a).last_action =
      { CHO := (announce_meal s.planned_meal a.CHO).1, insulin := a.insulin } := rfl

/-- C10: after `reset`, and after every successful `step`, the eating flag
holds exactly when the stored previous action's CHO (the most recent step's
post-cap ingestion) is positive. -/
theorem c10_eating_iff_positive_cho :
    (∀ (p : Params) (i : StateVec) (t0 : ℝ),
        ((reset p i t0).is_eating = true ↔ 0 < (reset p i t0).last_action.CHO)) ∧
      ∀ (integ : Params → Action → ℝ → ℝ → OdeSolver → OdeSolver) (s s2 : SimState)
        (a : Action),
        (s.is_eating = true ↔ 0 < s.last_action.CHO) →
        step integ s a = Except.ok s2 →
        (s2.is_eating = true ↔ 0 < s2.last_action.CHO) := by
  constructor
  · intro p i t0
    simp [reset]
  · intro integ s s2 a hinv hstep
    simp only [step] at hstep
    split_ifs at hstep with hsucc
    · injection hstep with h2
      subst h2
      show (stepBookkeeping s a).is_eating = true ↔ 0 < (stepBookkeeping s a).last_action.CHO
      rw [stepBookkeeping_is_eating, stepBookkeeping_last_action]
      show _ ↔ 0 < (announce_meal s.planned_meal a.CHO).1
      split_ifs with h4 h1
      · exact iff_of_false (by simp) (not_lt.2 h4.1)
      · exact iff_of_true (by simp) h1.1
      · by_cases he : 0 < (announce_meal s.planned_meal a.CHO).1
        · have hl : 0 < s.last_action.CHO := by
            rcases not_and_or.1 h1 with h | h
            · exact absurd he h
            · exact lt_of_not_le h
          exact ⟨fun _ => he, fun _ => hinv.2 hl⟩
        · have hl : ¬0 < s.last_action.CHO := by
            rcases not_and_or.1 h4 with h | h
            · exact absurd (not_lt.1 he) h
            · exact h
          exact ⟨fun hc => absurd (hinv.1 hc) hl, fun hc => absurd hc he⟩

theorem c10_eating_iff_positive_cho_witness :
    mealS3.is_eating = true ↔ 0 < mealS3.last_action.CHO :=
  c10_eating_iff_positive_cho.2 integId mealS0 mealS3 { CHO := 15, insulin := 0 }
    (by norm_num [mealS0]) step_mealS0_fifteen

end Simglucose
